import Mathlib

/-!
Verification of the AI messenger agent backend (`main.py`, `models.py`).

The development shallowly embeds the Python code:
* Python strings become `String` (operated on through `List Char`),
* the in-memory dict `user_profiles_db` becomes an association list with
  Python-dict insertion semantics (replace in place, otherwise append),
* the pydantic models become Lean structures with enumerated fields,
* the single fallible step (the awaited provider call) becomes an
  `Except String String` parameter of the endpoint function,
* the tuple-unpacking step of the parser, which is the one statement of the
  parsing loop that could raise in Python, is embedded through an
  `Option`-valued variant of the line processor.
-/

namespace AIAgent

/-- The whitespace characters removed by Python `str.strip()` (the ASCII set
`' \t\n\r\x0b\x0c'`; the code never feeds non-ASCII whitespace). -/
def pyIsSpace (c : Char) : Bool :=
  c = ' ' || c = '\t' || c = '\n' || c = '\r' || c = '\x0b' || c = '\x0c'

/-- Python `str.strip()` on the character list of a string. -/
def stripChars (l : List Char) : List Char :=
  ((l.dropWhile pyIsSpace).reverse.dropWhile pyIsSpace).reverse

/-- Python `sep in s` for a single-character `sep`. -/
def containsChar (sep : Char) : List Char → Bool
  | [] => false
  | c :: cs => c = sep || containsChar sep cs

/-- Python `s.split(sep)` (no maxsplit): split on every occurrence of `sep`,
keeping empty segments; the empty string yields one empty segment. -/
def splitOnChar (sep : Char) : List Char → List (List Char)
  | [] => [[]]
  | c :: cs =>
    match splitOnChar sep cs with
    | [] => [[]]
    | r :: rs => if c = sep then [] :: r :: rs else (c :: r) :: rs

/-- Python `s.split(sep, 1)`: `[before, after]` at the first occurrence of
`sep`, or `[s]` when `sep` does not occur. -/
def pySplit1 (sep : Char) : List Char → List (List Char)
  | [] => [[]]
  | c :: cs =>
    if c = sep then [[], cs]
    else
      match pySplit1 sep cs with
      | [] => [[c]]
      | r :: rs => (c :: r) :: rs

/-- Python dict assignment `m[k] = v`: replace the value at the first
occurrence of `k` keeping its position, otherwise append the new pair. -/
def dictInsert {α : Type} : List (String × α) → String → α → List (String × α)
  | [], k, v => [(k, v)]
  | (k', v') :: m, k, v =>
    if k' = k then (k, v) :: m else (k', v') :: dictInsert m k v

/-- Python `m.get(k)`. -/
def dictLookup {α : Type} : List (String × α) → String → Option α
  | [], _ => none
  | (k', v') :: m, k => if k' = k then some v' else dictLookup m k

/-- Number of entries of the association list carrying key `k`. -/
def countKey {α : Type} : List (String × α) → String → Nat
  | [], _ => 0
  | (k', _) :: m, k => (if k' = k then 1 else 0) + countKey m k

/-! ## The pydantic data model (`models.py`) -/

/-- The `Literal["low", "medium", "high", "very_high"]` trait levels. -/
inductive TraitLevel where
  | low | medium | high | very_high
deriving DecidableEq, Repr

/-- `Literal["formal", "semi_formal", "casual", "chatty"]`. -/
inductive Formality where
  | formal | semi_formal | casual | chatty
deriving DecidableEq, Repr

/-- `Literal["concise", "verbose"]`. -/
inductive Conciseness where
  | concise | verbose
deriving DecidableEq, Repr

/-- `Literal["none", "low", "medium", "high"]`. -/
inductive FourLevel where
  | none | low | medium | high
deriving DecidableEq, Repr

/-- The `Personality` model: five enumerated Big Five trait levels. -/
structure Personality where
  openness : TraitLevel
  conscientiousness : TraitLevel
  extraversion : TraitLevel
  agreeableness : TraitLevel
  neuroticism : TraitLevel
deriving DecidableEq, Repr

/-- The `CommunicationStyle` model. -/
structure CommunicationStyle where
  formality_preference : Formality
  conciseness_preference : Conciseness
  humor_level : FourLevel
  empathy_level : TraitLevel
  flirty_level : FourLevel
deriving DecidableEq, Repr

/-- The `UserProfile` model. -/
structure UserProfile where
  id : String
  personality : Personality
  communication_style : CommunicationStyle
  values_boundaries : List String
deriving DecidableEq, Repr

/-- The `Literal` conversation-context vocabulary of
`GenerateResponseRequest.conversation_context_type`. -/
inductive ContextType where
  | professional | casual | personal | dating | group_chat | other
deriving DecidableEq, Repr

/-- The 10-tone `Literal` vocabulary of `GenerateResponseRequest.desired_tones`. -/
inductive Tone where
  | professional | formal | semi_formal | chatty | flirty | funny
  | empathetic | direct | diplomatic | concise
deriving DecidableEq, Repr

/-- A `GenerateResponseRequest` that passed schema validation. -/
structure GenerateResponseRequest where
  user_id : String
  incoming_message : String
  conversation_context_type : ContextType
  desired_tones : List Tone
deriving DecidableEq, Repr

/-! ## Schema validation of `GenerateResponseRequest`

A raw request body before pydantic validation: each field is `none` when the
key is absent from the JSON body; enumerated fields arrive as strings. -/

/-- A raw `POST /generate_responses` body before pydantic validation. -/
structure RawGenerateRequest where
  user_id : Option String
  incoming_message : Option String
  conversation_context_type : Option String
  desired_tones : Option (List String)
deriving DecidableEq, Repr

/-- Decoding of the `conversation_context_type` literal vocabulary. -/
def decodeContextType : String → Option ContextType
  | "professional" => some .professional
  | "casual" => some .casual
  | "personal" => some .personal
  | "dating" => some .dating
  | "group_chat" => some .group_chat
  | "other" => some .other
  | _ => none

/-- Decoding of the desired-tone literal vocabulary. -/
def decodeTone : String → Option Tone
  | "professional" => some .professional
  | "formal" => some .formal
  | "semi_formal" => some .semi_formal
  | "chatty" => some .chatty
  | "flirty" => some .flirty
  | "funny" => some .funny
  | "empathetic" => some .empathetic
  | "direct" => some .direct
  | "diplomatic" => some .diplomatic
  | "concise" => some .concise
  | _ => none

/-- Elementwise decoding of the `desired_tones` list. -/
def decodeTones : List String → Option (List Tone)
  | [] => some []
  | t :: ts =>
    match decodeTone t, decodeTones ts with
    | some tone, some rest => some (tone :: rest)
    | _, _ => none

/-- Pydantic validation of `GenerateResponseRequest` (`models.py`, lines
24-28): `user_id`, `incoming_message` and `desired_tones` are required
(`Field(...)`); `conversation_context_type` defaults to `"casual"`;
enumerated values must come from their `Literal` vocabularies.  No length
constraint is declared on `desired_tones`. -/
def validateGenerateRequest (r : RawGenerateRequest) :
    Except String GenerateResponseRequest :=
  match r.user_id with
  | none => .error "user_id: field required"
  | some uid =>
    match r.incoming_message with
    | none => .error "incoming_message: field required"
    | some msg =>
      match (match r.conversation_context_type with
             | none => some ContextType.casual
             | some c => decodeContextType c) with
      | none => .error "conversation_context_type: not a permitted value"
      | some ctx =>
        match r.desired_tones with
        | none => .error "desired_tones: field required"
        | some ts =>
          match decodeTones ts with
          | none => .error "desired_tones: not a permitted value"
          | some tones => .ok ⟨uid, msg, ctx, tones⟩

/-! ## The completion parsing step (`main.py`, lines 125-132) -/

/-- The surviving options of one line's post-colon text:
`[opt.strip() for opt in options_str.split('|') if opt.strip()]`. -/
def lineOptions (optionsStr : List Char) : List String :=
  (((splitOnChar '|' optionsStr).map stripChars).filter
    (fun o => o ≠ [])).map String.mk

/-- One iteration of the parsing loop on one line (`main.py`, lines 127-132).
When the line contains a colon the tuple unpacking
`tone, options_str = line.split(':', 1)` always succeeds, so its failure
branch is mapped to the accumulator here; `processLineE` models it
faithfully. -/
def processLine (acc : List (String × List String)) (line : String) :
    List (String × List String) :=
  if containsChar ':' line.data then
    match pySplit1 ':' line.data with
    | [tone, optionsStr] =>
      let options := lineOptions optionsStr
      if options ≠ [] then dictInsert acc (String.mk (stripChars tone)) options
      else acc
    | _ => acc
  else acc

/-- One iteration of the parsing loop with the Python failure mode visible:
`none` models the `ValueError` the tuple unpacking would raise if
`line.split(':', 1)` did not return exactly two parts. -/
def processLineE (acc : List (String × List String)) (line : String) :
    Option (List (String × List String)) :=
  if containsChar ':' line.data then
    match pySplit1 ':' line.data with
    | [tone, optionsStr] =>
      let options := lineOptions optionsStr
      some (if options ≠ [] then
              dictInsert acc (String.mk (stripChars tone)) options
            else acc)
    | _ => none
  else some acc

/-- `response_text.strip().split('\n')` (`main.py`, line 125). -/
def completionLines (s : String) : List String :=
  (splitOnChar '\n' (stripChars s.data)).map String.mk

/-- The full parsing step: fold the loop body over the lines starting from the
empty dict `parsed_options = {}`. -/
def parsedOptions (s : String) : List (String × List String) :=
  (completionLines s).foldl processLine []

/-- The full parsing step with the Python failure mode visible. -/
def parsedOptionsE (s : String) : Option (List (String × List String)) :=
  (completionLines s).foldlM processLineE []

/-- What one line contributes to the dict: its trimmed tone label and
surviving options, or `none` when the line has no colon or no surviving
option. -/
def contribOf (line : String) : Option (String × List String) :=
  match pySplit1 ':' line.data with
  | [tone, optionsStr] =>
    let options := lineOptions optionsStr
    if options ≠ [] then some (String.mk (stripChars tone), options) else none
  | _ => none

/-- The trimmed text before the first colon of a line (its tone label). -/
def toneLabelOf (line : String) : String :=
  match pySplit1 ':' line.data with
  | tone :: _ => String.mk (stripChars tone)
  | [] => ""

/-- Whether the text after the first colon of a line, split on `'|'`, consists
only of empty or whitespace-only segments. -/
def afterColonAllBlank (line : String) : Bool :=
  match pySplit1 ':' line.data with
  | [_, optionsStr] => ((splitOnChar '|' optionsStr).map stripChars).all
      (fun o => o = [])
  | _ => false

/-! ## The endpoints (`main.py`) -/

/-- The result of an endpoint call: a JSON body or an `HTTPException`. -/
inductive EndpointResult where
  | ok (options : List (String × List String))
  | httpError (status : Nat) (detail : String)
deriving DecidableEq, Repr

/-- The 404 detail string of both profile-missing branches. -/
def notFoundDetail : String := "User profile not found. Please set it first."

/-- `set_user_profile` (`main.py`, line 44): `user_profiles_db[profile.id] = profile`. -/
def setProfile (db : List (String × UserProfile)) (p : UserProfile) :
    List (String × UserProfile) :=
  dictInsert db p.id p

/-- `get_user_profile` (`main.py`, lines 47-55): `user_profiles_db.get` and a
404 when absent (a `UserProfile` instance is always truthy, so
`if not profile` is exactly the `None` test). -/
def getUserProfile (db : List (String × UserProfile)) (user_id : String) :
    Except (Nat × String) UserProfile :=
  match dictLookup db user_id with
  | none => .error (404, notFoundDetail)
  | some p => .ok p

/-- `generate_responses_endpoint` (`main.py`, lines 57-137).  `provider` is
the outcome of the single awaited call `chain.ainvoke(...)`: the completion
text, or the text of the exception it raised.  The returned triple is the
HTTP outcome, whether the provider call was reached, and the profile store
after the call (the handler never writes to `user_profiles_db`). -/
def generateResponses (db : List (String × UserProfile))
    (provider : Except String String) (req : GenerateResponseRequest) :
    EndpointResult × Bool × List (String × UserProfile) :=
  match dictLookup db req.user_id with
  | none => (.httpError 404 notFoundDetail, false, db)
  | some _ =>
    match provider with
    | .error e => (.httpError 500 ("Error generating responses: " ++ e), true, db)
    | .ok text => (.ok (parsedOptions text), true, db)

/-- A concrete profile used by closed witnesses. -/
def sampleProfile : UserProfile :=
  ⟨"u1", ⟨.medium, .medium, .medium, .medium, .medium⟩,
    ⟨.casual, .concise, .medium, .medium, .none⟩, ["no insults"]⟩

/-- A first submission for user `"u1"` carrying a boundary statement. -/
def oldProfile : UserProfile :=
  ⟨"u1", ⟨.high, .medium, .low, .high, .medium⟩,
    ⟨.formal, .verbose, .low, .high, .none⟩, ["never discuss salary"]⟩

/-- A re-submission for user `"u1"` omitting every boundary statement. -/
def newProfile : UserProfile :=
  ⟨"u1", ⟨.medium, .medium, .medium, .medium, .medium⟩,
    ⟨.casual, .concise, .medium, .medium, .none⟩, []⟩

/-- A concrete request addressed to the stored user `"u1"`. -/
def sampleRequest : GenerateResponseRequest :=
  ⟨"u1", "are you coming tonight?", .casual, [.funny, .direct]⟩

/-- A concrete request addressed to a user absent from the store. -/
def strangerRequest : GenerateResponseRequest :=
  ⟨"ghost", "hello", .professional, [.professional]⟩

/-! ## Dictionary lemmas -/

theorem dictLookup_dictInsert_self {α : Type} (v : α) :
    ∀ (m : List (String × α)) (k : String),
      dictLookup (dictInsert m k v) k = some v
  | [], k => by simp [dictInsert, dictLookup]
  | (k', v') :: m, k => by
    by_cases h : k' = k
    · simp [dictInsert, dictLookup, h]
    · simp [dictInsert, dictLookup, h, dictLookup_dictInsert_self v m k]

theorem dictLookup_dictInsert_ne {α : Type} (v : α) :
    ∀ (m : List (String × α)) (k' k : String), k' ≠ k →
      dictLookup (dictInsert m k' v) k = dictLookup m k
  | [], k', k, h => by simp [dictInsert, dictLookup, h]
  | (k₀, v₀) :: m, k', k, h => by
    by_cases h0 : k₀ = k'
    · simp [dictInsert, dictLookup, h0, h, h0 ▸ h]
    · simp [dictInsert, dictLookup, h0,
        dictLookup_dictInsert_ne v m k' k h]

theorem countKey_dictInsert_self {α : Type} (v : α) :
    ∀ (m : List (String × α)) (k : String),
      countKey (dictInsert m k v) k = max (countKey m k) 1
  | [], k => by simp [dictInsert, countKey]
  | (k', v') :: m, k => by
    by_cases h : k' = k
    · simp [dictInsert, countKey, h]
    · simp [dictInsert, countKey, h, countKey_dictInsert_self v m k]

theorem countKey_dictInsert_ne {α : Type} (v : α) :
    ∀ (m : List (String × α)) (k' k : String), k' ≠ k →
      countKey (dictInsert m k' v) k = countKey m k
  | [], k', k, h => by simp [dictInsert, countKey, h]
  | (k₀, v₀) :: m, k', k, h => by
    by_cases h0 : k₀ = k'
    · simp [dictInsert, countKey, h0, h, h0 ▸ h]
    · simp [dictInsert, countKey, h0, countKey_dictInsert_ne v m k' k h]

theorem dictLookup_some_countKey {α : Type} :
    ∀ (m : List (String × α)) (k : String) (v : α),
      dictLookup m k = some v → 1 ≤ countKey m k
  | [], k, v, h => by simp [dictLookup] at h
  | (k₀, v₀) :: m, k, v, h => by
    by_cases h0 : k₀ = k
    · simp [countKey, h0]
    · simp [dictLookup, h0] at h
      simpa [countKey, h0] using dictLookup_some_countKey m k v h

/-! ## `pySplit1` and the shape of the parsing loop -/

theorem pySplit1_of_not_contains {sep : Char} :
    ∀ {l : List Char}, containsChar sep l = false → pySplit1 sep l = [l]
  | [], _ => rfl
  | c :: cs, h => by
    have hc : ¬ c = sep := by
      intro hcs
      simp [containsChar, hcs] at h
    have hcs : containsChar sep cs = false := by
      simpa [containsChar, hc] using h
    simp [pySplit1, hc, pySplit1_of_not_contains hcs]

theorem pySplit1_of_contains {sep : Char} :
    ∀ {l : List Char}, containsChar sep l = true →
      ∃ a b, pySplit1 sep l = [a, b]
  | [], h => by simp [containsChar] at h
  | c :: cs, h => by
    by_cases hc : c = sep
    · exact ⟨[], cs, by simp [pySplit1, hc]⟩
    · have hcs : containsChar sep cs = true := by
        simpa [containsChar, hc] using h
      obtain ⟨a, b, hab⟩ := pySplit1_of_contains hcs
      exact ⟨c :: a, b, by simp [pySplit1, hc, hab]⟩

theorem processLine_eq_contrib (acc : List (String × List String))
    (line : String) :
    processLine acc line =
      match contribOf line with
      | some p => dictInsert acc p.1 p.2
      | none => acc := by
  cases hc : containsChar ':' line.data with
  | false =>
    simp [processLine, contribOf, hc, pySplit1_of_not_contains hc]
  | true =>
    obtain ⟨a, b, hab⟩ := pySplit1_of_contains hc
    by_cases ho : lineOptions b = []
    · simp [processLine, contribOf, hc, hab, ho]
    · simp [processLine, contribOf, hc, hab, ho]

theorem processLineE_eq (acc : List (String × List String)) (line : String) :
    processLineE acc line = some (processLine acc line) := by
  cases hc : containsChar ':' line.data with
  | false => simp [processLine, processLineE, hc]
  | true =>
    obtain ⟨a, b, hab⟩ := pySplit1_of_contains hc
    simp [processLine, processLineE, hc, hab]

theorem foldlM_processLineE :
    ∀ (lines : List String) (acc : List (String × List String)),
      List.foldlM processLineE acc lines = some (lines.foldl processLine acc)
  | [], acc => rfl
  | line :: rest, acc => by
    rw [List.foldlM_cons, processLineE_eq]
    simpa using foldlM_processLineE rest (processLine acc line)

theorem getLast_cons_eq {α : Type} (a : α) :
    ∀ l : List α,
      (a :: l).getLast? =
        match l.getLast? with
        | some b => some b
        | none => some a
  | [] => rfl
  | b :: m => by
    rw [List.getLast?_cons_cons]
    cases hl : (b :: m).getLast? with
    | none => exact absurd (List.getLast?_eq_none_iff.mp hl) (by simp)
    | some q => simp

theorem dictLookup_foldl_processLine (k : String) :
    ∀ (lines : List String) (acc : List (String × List String)),
      dictLookup (lines.foldl processLine acc) k =
        match ((lines.filterMap contribOf).filter
            (fun p => p.1 = k)).getLast? with
        | some p => some p.2
        | none => dictLookup acc k
  | [], acc => by simp
  | line :: rest, acc => by
    rw [List.foldl_cons, dictLookup_foldl_processLine k rest,
      List.filterMap_cons]
    cases hc : contribOf line with
    | none =>
      cases hg : ((rest.filterMap contribOf).filter
          (fun p => p.1 = k)).getLast? with
      | none => simp [hg, processLine_eq_contrib, hc]
      | some q => simp [hg, processLine_eq_contrib, hc]
    | some p =>
      by_cases hk : p.1 = k
      · cases hg : ((rest.filterMap contribOf).filter
            (fun q => q.1 = k)).getLast? with
        | none =>
          subst hk
          simp [List.filter_cons, getLast_cons_eq, hg,
            processLine_eq_contrib, hc, dictLookup_dictInsert_self]
        | some q =>
          simp [List.filter_cons, hk, getLast_cons_eq, hg,
            processLine_eq_contrib, hc]
      · cases hg : ((rest.filterMap contribOf).filter
            (fun q => q.1 = k)).getLast? with
        | none =>
          simp [List.filter_cons, hk, hg, processLine_eq_contrib, hc,
            dictLookup_dictInsert_ne _ _ _ _ hk]
        | some q =>
          simp [List.filter_cons, hk, hg, processLine_eq_contrib, hc]

theorem countKey_processLine_le (k : String)
    (acc : List (String × List String)) (line : String)
    (h : countKey acc k ≤ 1) : countKey (processLine acc line) k ≤ 1 := by
  rw [processLine_eq_contrib]
  cases hc : contribOf line with
  | none => exact h
  | some p =>
    by_cases hk : p.1 = k
    · rw [← hk] at h ⊢
      rw [countKey_dictInsert_self]
      omega
    · rw [countKey_dictInsert_ne _ _ _ _ hk]
      exact h

theorem countKey_foldl_processLine_le (k : String) :
    ∀ (lines : List String) (acc : List (String × List String)),
      countKey acc k ≤ 1 → countKey (lines.foldl processLine acc) k ≤ 1
  | [], _, h => h
  | line :: rest, acc, h =>
    countKey_foldl_processLine_le k rest (processLine acc line)
      (countKey_processLine_le k acc line h)

theorem dictLookup_foldl_setProfile :
    ∀ (ps : List UserProfile) (db : List (String × UserProfile))
      (uid : String), (∀ p ∈ ps, p.id ≠ uid) →
      dictLookup (ps.foldl setProfile db) uid = dictLookup db uid
  | [], _, _, _ => rfl
  | p :: ps, db, uid, h => by
    rw [List.foldl_cons,
      dictLookup_foldl_setProfile ps _ uid
        (fun q hq => h q (List.mem_cons_of_mem p hq))]
    exact dictLookup_dictInsert_ne _ _ _ _ (h p (List.mem_cons_self p ps))

/-! ## Claims -/

/-- C1: for the provider completion consisting of the line
`"Professional: Hello there. | Good day."` followed by the line
`"Funny: lol no"`, the parsing step of `generate_responses` produces exactly
the mapping `{"Professional": ["Hello there.", "Good day."],
"Funny": ["lol no"]}`. -/
theorem parse_canned_completion :
    parsedOptions "Professional: Hello there. | Good day.\nFunny: lol no" =
      [("Professional", ["Hello there.", "Good day."]),
       ("Funny", ["lol no"])] := by decide

/-- C2: when the request's `user_id` is present in the store and the provider
call raises, `generate_responses` returns a 500 whose detail is
`"Error generating responses: "` followed by the exception's text, and the
profile store is unchanged (the returned store is the input store). -/
theorem provider_error_returns_500_store_unchanged
    (db : List (String × UserProfile)) (req : GenerateResponseRequest)
    (e : String) (p : UserProfile)
    (h : dictLookup db req.user_id = some p) :
    generateResponses db (.error e) req =
      (.httpError 500 ("Error generating responses: " ++ e), true, db) := by
  unfold generateResponses
  rw [h]

/-- Witness for C2 at a store holding `sampleProfile` and the provider
raising `"boom"`. -/
theorem provider_error_returns_500_store_unchanged_witness :
    generateResponses (setProfile [] sampleProfile) (.error "boom")
        sampleRequest =
      (.httpError 500 ("Error generating responses: " ++ "boom"), true,
        setProfile [] sampleProfile) :=
  provider_error_returns_500_store_unchanged _ sampleRequest "boom"
    sampleProfile (by decide)

/-- C3: setting a profile and then getting it by the same id returns a
profile equal to the one that was set. -/
theorem set_then_get_roundtrip (db : List (String × UserProfile))
    (p : UserProfile) :
    getUserProfile (setProfile db p) p.id = .ok p := by
  unfold getUserProfile setProfile
  rw [dictLookup_dictInsert_self]

/-- C4: re-setting a profile under the same id leaves the store entry equal
to the second profile in every field; in particular no boundary statement of
the first profile that the second omits survives. -/
theorem reset_profile_overwrites (db : List (String × UserProfile))
    (p1 p2 : UserProfile) (h : p1.id = p2.id) :
    dictLookup (setProfile (setProfile db p1) p2) p2.id = some p2 ∧
    ∀ q, dictLookup (setProfile (setProfile db p1) p2) p2.id = some q →
      ∀ b ∈ p1.values_boundaries, b ∉ p2.values_boundaries →
        b ∉ q.values_boundaries := by
  have hl : dictLookup (setProfile (setProfile db p1) p2) p2.id = some p2 :=
    dictLookup_dictInsert_self p2 (setProfile db p1) p2.id
  refine ⟨hl, fun q hq b _ hnb => ?_⟩
  rw [hl] at hq
  cases hq
  exact hnb

/-- Witness for C4: re-submitting user `"u1"` without the old boundary
statement leaves an entry equal to the new profile, with the old boundary
gone. -/
theorem reset_profile_overwrites_witness :
    dictLookup (setProfile (setProfile [] oldProfile) newProfile)
        newProfile.id = some newProfile ∧
    "never discuss salary" ∉ newProfile.values_boundaries :=
  ⟨(reset_profile_overwrites [] oldProfile newProfile (by decide)).1,
    by decide⟩

/-- C5: when the request's `user_id` is not a key of the store,
`generate_responses` returns a 404 and the provider is never invoked
(the call flag of the embedding is `false`). -/
theorem unknown_user_404_no_provider_call (db : List (String × UserProfile))
    (provider : Except String String) (req : GenerateResponseRequest)
    (h : dictLookup db req.user_id = none) :
    generateResponses db provider req =
      (.httpError 404 notFoundDetail, false, db) := by
  unfold generateResponses
  rw [h]

/-- Witness for C5 on the empty store. -/
theorem unknown_user_404_no_provider_call_witness :
    generateResponses [] (.ok "Funny: ha") strangerRequest =
      (.httpError 404 notFoundDetail, false, []) :=
  unknown_user_404_no_provider_call [] (.ok "Funny: ha") strangerRequest
    (by decide)

/-- C6: getting a profile for an id never set — the store was built from the
empty store by a sequence of `set_user_profile` calls none of which used this
id — returns a 404 with detail
`"User profile not found. Please set it first."`. -/
theorem never_set_profile_get_404 (ps : List UserProfile) (uid : String)
    (h : ∀ p ∈ ps, p.id ≠ uid) :
    getUserProfile (ps.foldl setProfile []) uid =
      .error (404, notFoundDetail) := by
  unfold getUserProfile
  rw [dictLookup_foldl_setProfile ps [] uid h]
  rfl

/-- Witness for C6 on a store holding only `sampleProfile`. -/
theorem never_set_profile_get_404_witness :
    getUserProfile ([sampleProfile].foldl setProfile []) "nobody" =
      .error (404, notFoundDetail) :=
  never_set_profile_get_404 [sampleProfile] "nobody" (by decide)

/-- C7 counterexample: in the completion `"A: x\nA:"` the line `"A:"`
contains a colon and its post-colon text splits into blank segments only,
yet the returned mapping does contain an entry for that line's tone label
`"A"` (contributed by the earlier line `"A: x"`), so the claim that the
mapping has no entry for that label is false as stated. -/
theorem blank_options_line_counterexample :
    ("A:" ∈ completionLines "A: x\nA:") ∧
    containsChar ':' "A:".data = true ∧
    afterColonAllBlank "A:" = true ∧
    toneLabelOf "A:" = "A" ∧
    dictLookup (parsedOptions "A: x\nA:") "A" = some ["x"] := by decide

/-- C7 amended: a completion line with a colon whose post-colon text splits
into only empty or whitespace-only segments contributes nothing — processing
it leaves the accumulated mapping unchanged (so, absent another line with
the same label, no entry for that label appears). -/
theorem blank_options_line_contributes_nothing
    (acc : List (String × List String)) (line : String)
    (h1 : containsChar ':' line.data = true)
    (h2 : afterColonAllBlank line = true) :
    processLine acc line = acc := by
  obtain ⟨a, b, hab⟩ := pySplit1_of_contains h1
  have hopts : lineOptions b = [] := by
    unfold afterColonAllBlank at h2
    rw [hab] at h2
    simp only [List.all_eq_true, decide_eq_true_eq] at h2
    unfold lineOptions
    rw [List.filter_eq_nil_iff.mpr ?_]
    · rfl
    · intro o ho
      simpa using h2 o ho
  simp [processLine, h1, hab, hopts]

/-- Witness for the amended C7 on the line `"A: | "`. -/
theorem blank_options_line_contributes_nothing_witness :
    containsChar ':' "A: | ".data = true ∧
    afterColonAllBlank "A: | " = true ∧
    processLine [("B", ["y"])] "A: | " = [("B", ["y"])] :=
  ⟨by decide, by decide,
    blank_options_line_contributes_nothing [("B", ["y"])] "A: | "
      (by decide) (by decide)⟩

/-- C8: the parsing step is total — the `Option`-valued embedding that makes
the only possibly-raising statement (the tuple unpacking) visible always
succeeds, agreeing with the total parser — and a line containing no colon
contributes nothing to the mapping. -/
theorem parse_step_total_and_ignores_colonless_lines :
    (∀ s : String, parsedOptionsE s = some (parsedOptions s)) ∧
    (∀ (acc : List (String × List String)) (line : String),
      containsChar ':' line.data = false → processLine acc line = acc) :=
  ⟨fun s => foldlM_processLineE (completionLines s) [],
    fun acc line h => by simp [processLine, h]⟩

/-- Witness for C8 on a concrete completion and a concrete colon-free line. -/
theorem parse_step_total_and_ignores_colonless_lines_witness :
    parsedOptionsE "Funny: ha | no" = some (parsedOptions "Funny: ha | no") ∧
    processLine [] "no separator here" = [] :=
  ⟨parse_step_total_and_ignores_colonless_lines.1 "Funny: ha | no",
    parse_step_total_and_ignores_colonless_lines.2 [] "no separator here"
      (by decide)⟩

/-- C9 counterexample: a request body whose `desired_tones` is the empty
list passes schema validation (pydantic declares no length constraint on
the field), refuting both that every accepted request has a non-empty
`desired_tones` and that such a body is rejected as a `ValidationError`. -/
theorem empty_desired_tones_accepted :
    validateGenerateRequest ⟨some "u1", some "hi", none, some []⟩ =
      .ok ⟨"u1", "hi", ContextType.casual, []⟩ := rfl

/-- C9 amended: schema validation requires the `desired_tones` key to be
present (every accepted body carries it), but does not require the list to
be non-empty: a body with `desired_tones = []` is accepted and reaches the
handler. -/
theorem desired_tones_required_but_may_be_empty :
    (∀ (r : RawGenerateRequest) (req : GenerateResponseRequest),
        validateGenerateRequest r = .ok req → r.desired_tones ≠ none) ∧
    (∀ uid msg : String,
        validateGenerateRequest ⟨some uid, some msg, none, some []⟩ =
          .ok ⟨uid, msg, ContextType.casual, []⟩) := by
  constructor
  · intro r req hok hnone
    rcases r with ⟨uid, msg, ctx, tones⟩
    dsimp at hnone
    subst hnone
    cases uid with
    | none => simp [validateGenerateRequest] at hok
    | some u =>
      cases msg with
      | none => simp [validateGenerateRequest] at hok
      | some m =>
        unfold validateGenerateRequest at hok
        dsimp at hok
        split at hok
        · exact absurd hok (by simp)
        · exact absurd hok (by simp)
  · intro uid msg
    rfl

/-- Witness for the amended C9: a body with one valid tone is accepted and
carries the key; a body with the empty list is accepted too. -/
theorem desired_tones_required_but_may_be_empty_witness :
    (RawGenerateRequest.mk (some "u1") (some "hi") none
        (some ["funny"])).desired_tones ≠ none ∧
    validateGenerateRequest ⟨some "u2", some "yo", none, some []⟩ =
      .ok ⟨"u2", "yo", ContextType.casual, []⟩ :=
  ⟨desired_tones_required_but_may_be_empty.1
      ⟨some "u1", some "hi", none, some ["funny"]⟩
      ⟨"u1", "hi", .casual, [.funny]⟩ rfl,
    desired_tones_required_but_may_be_empty.2 "u2" "yo"⟩

/-- C10: when two or more lines of the completion contribute the same
trimmed tone label (each with at least one surviving option), the returned
mapping holds exactly one entry for that label, carrying the options of the
last such line. -/
theorem duplicate_tone_labels_last_line_wins (s t : String)
    (h : 2 ≤ (((completionLines s).filterMap contribOf).filter
      (fun p => p.1 = t)).length) :
    countKey (parsedOptions s) t = 1 ∧
    dictLookup (parsedOptions s) t =
      ((((completionLines s).filterMap contribOf).filter
        (fun p => p.1 = t)).getLast?).map Prod.snd := by
  have hne : (((completionLines s).filterMap contribOf).filter
      (fun p => p.1 = t)) ≠ [] := by
    intro h0
    rw [h0] at h
    simp at h
  obtain ⟨p, hp⟩ : ∃ p, (((completionLines s).filterMap contribOf).filter
      (fun p => p.1 = t)).getLast? = some p := by
    cases hl : (((completionLines s).filterMap contribOf).filter
        (fun p => p.1 = t)).getLast? with
    | none => exact absurd (List.getLast?_eq_none_iff.mp hl) hne
    | some p => exact ⟨p, rfl⟩
  have hlook : dictLookup (parsedOptions s) t = some p.2 := by
    unfold parsedOptions
    rw [dictLookup_foldl_processLine t (completionLines s) [], hp]
  refine ⟨?_, by rw [hlook, hp]; rfl⟩
  have h1 : 1 ≤ countKey (parsedOptions s) t :=
    dictLookup_some_countKey (parsedOptions s) t p.2 hlook
  have h2 : countKey (parsedOptions s) t ≤ 1 :=
    countKey_foldl_processLine_le t (completionLines s) []
      (by simp [countKey])
  omega

/-- Witness for C10 on the completion `"A: x\nA: y"` with label `"A"`. -/
theorem duplicate_tone_labels_last_line_wins_witness :
    countKey (parsedOptions "A: x\nA: y") "A" = 1 ∧
    dictLookup (parsedOptions "A: x\nA: y") "A" =
      ((((completionLines "A: x\nA: y").filterMap contribOf).filter
        (fun p => p.1 = "A")).getLast?).map Prod.snd :=
  duplicate_tone_labels_last_line_wins "A: x\nA: y" "A" (by decide)

end AIAgent
